import Mathlib

/-!
Shallow embedding of `plot_2d-eem.py` (EEM contour-plot batch converter).

The script's pipeline is `get_fileNames` (directory listing filtered to
`.csv`, sorted), `get_XYZ` (pandas `read_csv(header=0, index_col=0).T`
plus `np.meshgrid`), `plot_contour` (contourf, colorbar tick computation
from the rounded maximum, savefig), and a `main` loop with a per-file
try/except.  Machine floats are modelled as exact rationals; pandas cell
values are modelled as either a number or an uninterpreted string, which
is how `read_csv` leaves fields it cannot convert.
-/

namespace PlotEEM

/-- A parsed CSV field: pandas keeps numeric fields as numbers and leaves
everything else as a string (no error at parse time). -/
inductive Cell where
  | num (q : ℚ)
  | str (s : String)
deriving DecidableEq, Repr

/-- `true` on numeric cells. -/
def Cell.isNum : Cell → Bool
  | .num _ => true
  | .str _ => false

/-- The tokenized content of an input file: the header row (after the
index-name field) and the data rows, each a row label plus its fields.
Fields are already classified numeric-or-not, as pandas' tokenizer does. -/
structure RawCSV where
  header : List String
  rows : List (Cell × List Cell)
deriving DecidableEq, Repr

/-- A pandas DataFrame: row labels, column labels, and the cell grid
(stored row-major). -/
structure DataFrame where
  index : List Cell
  columns : List Cell
  data : List (List Cell)
deriving DecidableEq, Repr

/-- Transpose of a rectangular row-major grid with `ncols` columns. -/
def listTranspose (rows : List (List Cell)) (ncols : Nat) : List (List Cell) :=
  (List.range ncols).map (fun j => rows.filterMap (fun r => r[j]?))

/-- `pd.read_csv(path, header=0, index_col=0)`: the first row becomes the
column labels (always strings), the first field of each remaining row
becomes the row label.  A row whose field count does not match the header
is a tokenization error (pandas raises on over-long rows; we fold the
NaN-padding of short rows into the same error, which no claim exercises). -/
def read_csv (raw : RawCSV) : Except String DataFrame :=
  if raw.rows.all (fun r => r.2.length = raw.header.length) then
    .ok ⟨raw.rows.map Prod.fst, raw.header.map Cell.str, raw.rows.map Prod.snd⟩
  else
    .error "ParserError: error tokenizing data"

/-- `df.T`: swaps labels and transposes the grid. -/
def DataFrame.T (df : DataFrame) : DataFrame :=
  ⟨df.columns, df.index, listTranspose df.data df.columns.length⟩

/-- Value of a digit string. -/
def digitsToNat (cs : List Char) : Nat :=
  cs.foldl (fun acc c => 10 * acc + (c.toNat - '0'.toNat)) 0

/-- Model of Python `int(s)` on a string: an optional minus sign followed
by a nonempty run of digits; anything else is a `ValueError`. -/
def parseInt (s : String) : Option Int :=
  match s.data with
  | [] => none
  | '-' :: cs =>
    if cs ≠ [] ∧ cs.all Char.isDigit then some (-(digitsToNat cs : Int)) else none
  | cs =>
    if cs ≠ [] ∧ cs.all Char.isDigit then some ((digitsToNat cs : Int)) else none

/-- Truncation toward zero, as numeric `astype(int)` does. -/
def ratTrunc (q : ℚ) : Int := if 0 ≤ q then ⌊q⌋ else -⌊-q⌋

/-- Conversion of one label by `Index.astype(int)`. -/
def cellToInt : Cell → Except String Int
  | .num q => .ok (ratTrunc q)
  | .str s =>
    match parseInt s with
    | some n => .ok n
    | none => .error ("ValueError: invalid literal for int() with base 10: " ++ s)

/-- `Index.astype(int)` over the whole label list. -/
def astypeInt : List Cell → Except String (List Int)
  | [] => .ok []
  | c :: cs =>
    match cellToInt c with
    | .error e => .error e
    | .ok n =>
      match astypeInt cs with
      | .error e => .error e
      | .ok ns => .ok (n :: ns)

/-- `np.meshgrid(x, y)`: X stacks `len(y)` copies of `x` as rows, Y
broadcasts each entry of `y` across a row of length `len(x)`. -/
def meshgrid (x : List Cell) (y : List Int) : List (List Cell) × List (List Int) :=
  (y.map (fun _ => x), y.map (fun v => x.map (fun _ => v)))

/-- `get_XYZ`: read the file, transpose, take `x` from the (transposed)
columns and `y` from the (transposed) index converted to int, and mesh. -/
def get_XYZ (raw : RawCSV) : Except String (List (List Cell) × List (List Int) × DataFrame) :=
  match read_csv raw with
  | .error e => .error e
  | .ok df =>
    let Z := DataFrame.T df
    let x := Z.columns
    match astypeInt Z.index with
    | .error e => .error e
    | .ok y =>
      let XY := meshgrid x y
      .ok (XY.1, XY.2, Z)

/-- Round half to even, the rounding mode of Python's builtin `round`. -/
def roundHalfEven (q : ℚ) : Int :=
  if q - ⌊q⌋ < 1/2 then ⌊q⌋
  else if 1/2 < q - ⌊q⌋ then ⌊q⌋ + 1
  else if Even ⌊q⌋ then ⌊q⌋ else ⌊q⌋ + 1

/-- Python `round(q, -2)`: round to the nearest multiple of 100, ties to
even. -/
def pyRound100 (q : ℚ) : ℚ := 100 * (roundHalfEven (q / 100) : ℚ)

/-- Modelled from the spec's words, for comparison with the code's
`pyRound100`: "the maximum intensity value in Z, rounded DOWN to the
nearest multiple of 100". -/
def specFloor100 (q : ℚ) : ℚ := 100 * ((⌊q / 100⌋ : ℤ) : ℚ)

/-- `np.arange(start, stop, step)`: `ceil((stop - start)/step)` values
spaced by `step`; a zero step raises `ZeroDivisionError`. -/
def np_arange (start stop step : ℚ) : Except String (List ℚ) :=
  if step = 0 then .error "ZeroDivisionError: division by zero"
  else .ok ((List.range (⌈(stop - start) / step⌉.toNat)).map (fun i => start + (i : ℚ) * step))

/-- Extract a numeric cell; a string cell cannot be coerced to float
(matplotlib raises `TypeError` on object-dtype input). -/
def cellNum : Cell → Except String ℚ
  | .num q => .ok q
  | .str s => .error ("TypeError: could not convert string to float: " ++ s)

/-- Numeric values of a cell list, failing on the first string cell. -/
def cellsNums : List Cell → Except String (List ℚ)
  | [] => .ok []
  | c :: cs =>
    match cellNum c with
    | .error e => .error e
    | .ok q =>
      match cellsNums cs with
      | .error e => .error e
      | .ok qs => .ok (q :: qs)

/-- `max(Z.max())`: the largest cell value; empty data raises, string
cells cannot be compared against floats. -/
def dfMax (df : DataFrame) : Except String ℚ :=
  match cellsNums df.data.flatten with
  | .error e => .error e
  | .ok [] => .error "ValueError: max() arg is an empty sequence"
  | .ok (q :: rest) => .ok (rest.foldl max q)

/-- `ax.contourf(X, Y, Z, 100, cmap='jet')`: requires numeric data, X and
Y shaped like Z, and Z at least 2×2; the drawing itself is not modelled. -/
def contourf (X : List (List Cell)) (Y : List (List Int)) (Z : DataFrame) :
    Except String Unit :=
  if ¬ Z.data.all (fun row => row.all Cell.isNum) then
    .error "TypeError: Input z must be numeric"
  else if X.map List.length ≠ Z.data.map List.length ∨
      Y.map List.length ≠ Z.data.map List.length then
    .error "TypeError: Shapes of x and z do not match"
  else if Z.data.length < 2 ∨ Z.data.any (fun row => row.length < 2) then
    .error "TypeError: Input z must be at least a (2, 2) shaped array"
  else .ok ()

/-- Python `s.endswith(suf)`: suffix test on characters (case-sensitive,
as Python's is). -/
def strEndsWith (s suf : String) : Bool := suf.data.isSuffixOf s.data

/-- Python `s[:-4]`: drop the last four characters (empty if shorter). -/
def pyDropLast4 (s : String) : String := ⟨s.data.take (s.data.length - 4)⟩

/-- `os.path.join` for the relative names produced by `os.listdir`. -/
def pyJoin (dir name : String) : String :=
  if dir = "" then name
  else if strEndsWith dir "/" then dir ++ name
  else dir ++ "/" ++ name

/-- The observable outcome of a successful `plot_contour` call: the
colorbar ticks it set and the path `savefig` wrote. -/
structure PlotResult where
  ticks : List ℚ
  outPath : String
deriving DecidableEq, Repr

/-- `plot_contour`: draw the filled contour, compute
`maxZ = round(max(Z.max()), -2)`, set the colorbar ticks to
`np.arange(0, maxZ+1, maxZ/5)`, and save to
`os.path.join(filePath, fileName[:-4]) + '.' + outFormat`. -/
def plot_contour (X : List (List Cell)) (Y : List (List Int)) (Z : DataFrame)
    (filePath fileName outFormat : String) : Except String PlotResult :=
  match contourf X Y Z with
  | .error e => .error e
  | .ok _ =>
    match dfMax Z with
    | .error e => .error e
    | .ok m =>
      let maxZ := pyRound100 m
      match np_arange 0 (maxZ + 1) (maxZ / 5) with
      | .error e => .error e
      | .ok ticks =>
        let outfile := pyJoin filePath (pyDropLast4 fileName)
        .ok ⟨ticks, outfile ++ "." ++ outFormat⟩

/-- `fig.savefig` on a store of files: writes `content` at `path`,
replacing whatever was there (no existence check). -/
def savefig (fs : String → Option String) (path content : String) :
    String → Option String :=
  fun p => if p = path then some content else fs p

/-- Python string comparison `a <= b`: code-point lexicographic order
(strictly smaller, or equal). -/
def pyStrLe (a b : String) : Prop :=
  List.Lex (· < ·) a.data b.data ∨ a.data = b.data

instance : DecidableRel pyStrLe := fun a b =>
  inferInstanceAs (Decidable (List.Lex (· < ·) a.data b.data ∨ a.data = b.data))

instance : IsTrans String pyStrLe where
  trans a b c hab hbc := by
    rcases hab with hab | hab
    · rcases hbc with hbc | hbc
      · exact Or.inl (IsTrans.trans a.data b.data c.data hab hbc)
      · exact Or.inl (hbc ▸ hab)
    · rcases hbc with hbc | hbc
      · exact Or.inl (hab ▸ hbc)
      · exact Or.inr (hab.trans hbc)

instance : IsAntisymm String pyStrLe where
  antisymm a b hab hba := by
    rcases hab with hab | hab
    · rcases hba with hba | hba
      · exact absurd hab (IsAsymm.asymm b.data a.data hba)
      · exact absurd (hba ▸ hab) (IsIrrefl.irrefl a.data)
    · exact String.toList_inj.mp hab

instance : IsTotal String pyStrLe where
  total a b := by
    rcases @trichotomous (List Char) (List.Lex (· < ·)) _ a.data b.data with h | h | h
    · exact Or.inl (Or.inl h)
    · exact Or.inl (Or.inr h)
    · exact Or.inr (Or.inl h)

/-- `get_fileNames`: keep the names ending in `.csv` (case-sensitive, as
`str.endswith` is) and sort them lexicographically, as Python `sorted`
does on strings. -/
def get_fileNames (fileList : List String) : List String :=
  List.insertionSort pyStrLe (fileList.filter (fun file => strEndsWith file ".csv"))

/-- One iteration of `main`'s loop body: look the file up in the
directory, `get_XYZ`, then `plot_contour`.  Any error escapes to the
surrounding `except` clause. -/
def processFile (contents : List (String × RawCSV)) (filePath file outFormat : String) :
    Except String PlotResult :=
  match contents.lookup file with
  | none => .error ("FileNotFoundError: " ++ file)
  | some raw =>
    match get_XYZ raw with
    | .error e => .error e
    | .ok XYZ => plot_contour XYZ.1 XYZ.2.1 XYZ.2.2 filePath file outFormat

/-- What `main`'s loop leaves behind: the success count, the written
output paths in order, and the `Failed to plot ...` lines in order. -/
structure RunResult where
  count : Nat
  outputs : List String
  failLines : List String
deriving DecidableEq, Repr

/-- `main`'s try/except loop over the discovered file names. -/
def runLoop (contents : List (String × RawCSV)) (filePath outFormat : String) :
    List String → RunResult
  | [] => ⟨0, [], []⟩
  | file :: rest =>
    let r := runLoop contents filePath outFormat rest
    match processFile contents filePath file outFormat with
    | .ok res => ⟨r.count + 1, res.outPath :: r.outputs, r.failLines⟩
    | .error _ => ⟨r.count, r.outputs, ("Failed to plot " ++ file ++ ".") :: r.failLines⟩

/-- `main` after argument parsing: discover the files, run the loop, and
print the summary line (spelled exactly as in the script). -/
def main_run (contents : List (String × RawCSV)) (filePath outFormat : String) :
    RunResult × String :=
  let fileNames := get_fileNames (contents.map Prod.fst)
  let r := runLoop contents filePath outFormat fileNames
  (r, "Succesfully plotted " ++ toString r.count ++ "/" ++
      toString fileNames.length ++ " files.")

/-- Whether an `Except` computation succeeded. -/
def exceptIsOk : Except String α → Bool
  | .ok _ => true
  | .error _ => false

/-! ### Concrete sample inputs used to exercise the claims -/

/-- A well-formed table with excitation headers 300, 310, 320 and
emission index 350, 360; `a..f` are the intensities, row-major in the
raw file layout. -/
def sampleRaw (a b c d e f : ℚ) : RawCSV :=
  ⟨["300", "310", "320"],
   [(.num 350, [.num a, .num b, .num c]),
    (.num 360, [.num d, .num e, .num f])]⟩

/-- A well-formed 2×2 table with excitation headers 300, 310 and
emission index 350, 360. -/
def smallRaw (a b c d : ℚ) : RawCSV :=
  ⟨["300", "310"],
   [(.num 350, [.num a, .num b]),
    (.num 360, [.num c, .num d])]⟩

/-- A 2×2 table whose first body cell is not numeric. -/
def rawBad : RawCSV :=
  ⟨["300", "310"],
   [(.num 350, [.str "oops", .num 2]),
    (.num 360, [.num 3, .num 4])]⟩

/-- 2×2 coordinate grid over emissions 350, 360. -/
def sampleX2 : List (List Cell) := [[.num 350, .num 360], [.num 350, .num 360]]

/-- 2×2 coordinate grid over excitations 300, 310. -/
def sampleY2 : List (List Int) := [[300, 300], [310, 310]]

/-- 2×2 intensity matrix with maximum 437. -/
def sampleZ437 : DataFrame :=
  ⟨[.num 300, .num 310], [.num 350, .num 360],
   [[.num 100, .num 200], [.num 300, .num 437]]⟩

/-- 2×2 intensity matrix with maximum 470. -/
def sampleZ470 : DataFrame :=
  ⟨[.num 300, .num 310], [.num 350, .num 360],
   [[.num 100, .num 200], [.num 300, .num 470]]⟩

/-- 2×2 intensity matrix with maximum −100 (no positive value). -/
def sampleZneg : DataFrame :=
  ⟨[.num 300, .num 310], [.num 350, .num 360],
   [[.num (-100), .num (-200)], [.num (-300), .num (-400)]]⟩

/-- 2×2 intensity matrix with maximum −30 (no positive value). -/
def sampleZm30 : DataFrame :=
  ⟨[.num 300, .num 310], [.num 350, .num 360],
   [[.num (-30), .num (-60)], [.num (-90), .num (-120)]]⟩

/-- 2×2 intensity matrix of low-magnitude positive data, maximum 40. -/
def sampleZlow : DataFrame :=
  ⟨[.num 300, .num 310], [.num 350, .num 360],
   [[.num 10, .num 20], [.num 30, .num 40]]⟩

/-- 3×2 coordinate grid over emissions 350, 360 (three excitation rows). -/
def sampleX3 : List (List Cell) :=
  [[.num 350, .num 360], [.num 350, .num 360], [.num 350, .num 360]]

/-- 3×2 coordinate grid over excitations 300, 310, 320. -/
def sampleY3 : List (List Int) := [[300, 300], [310, 310], [320, 320]]

/-- The DataFrame produced by `get_XYZ` from `sampleRaw a b c d e f`:
the transposed 3×2 table. -/
def sampleZ3 (a b c d e f : ℚ) : DataFrame :=
  ⟨[.str "300", .str "310", .str "320"], [.num 350, .num 360],
   [[.num a, .num d], [.num b, .num e], [.num c, .num f]]⟩

/-- The DataFrame produced by `get_XYZ` from `smallRaw a b c d`: the
transposed table. -/
def sampleZsmall (a b c d : ℚ) : DataFrame :=
  ⟨[.str "300", .str "310"], [.num 350, .num 360],
   [[.num a, .num c], [.num b, .num d]]⟩

/-- A table whose header row holds a label that is not convertible to an
integer. -/
def rawBadHeader : RawCSV := ⟨["ex300"], [(.num 350, [.num 1])]⟩

/-- A three-file directory: two well-formed samples and one malformed
file with a non-numeric cell. -/
def sampleDir : List (String × RawCSV) :=
  [("s1.csv", smallRaw 100 200 300 437),
   ("bad.csv", rawBad),
   ("s2.csv", smallRaw 110 210 310 390)]

/-! ### Helper lemmas -/

theorem astypeInt_length {cs : List Cell} {ns : List Int} (h : astypeInt cs = .ok ns) :
    ns.length = cs.length := by
  induction cs generalizing ns with
  | nil => simp [astypeInt] at h; simp [← h]
  | cons c cs ih =>
    simp only [astypeInt] at h
    cases h1 : cellToInt c with
    | error e => rw [h1] at h; exact absurd h (by simp)
    | ok n =>
      rw [h1] at h
      cases h2 : astypeInt cs with
      | error e => rw [h2] at h; exact absurd h (by simp)
      | ok ns2 =>
        rw [h2] at h
        cases h
        simpa using ih h2

theorem astypeInt_isOk_of_forall {cs : List Cell}
    (h : ∀ c ∈ cs, exceptIsOk (cellToInt c) = true) :
    exceptIsOk (astypeInt cs) = true := by
  induction cs with
  | nil => simp [astypeInt, exceptIsOk]
  | cons c cs ih =>
    have hc := h c (by simp)
    cases h1 : cellToInt c with
    | error e => rw [h1] at hc; simp [exceptIsOk] at hc
    | ok n =>
      have hrest := ih (fun c2 hc2 => h c2 (by simp [hc2]))
      cases h2 : astypeInt cs with
      | error e => rw [h2] at hrest; simp [exceptIsOk] at hrest
      | ok ns => simp [astypeInt, h1, h2, exceptIsOk]

theorem astypeInt_not_ok_of_mem {cs : List Cell} {c : Cell} (hm : c ∈ cs)
    (h : exceptIsOk (cellToInt c) = false) :
    exceptIsOk (astypeInt cs) = false := by
  induction cs with
  | nil => simp at hm
  | cons c2 cs ih =>
    rcases List.mem_cons.mp hm with h2 | h2
    · subst h2
      cases h1 : cellToInt c with
      | error e => cases h3 : astypeInt cs <;> simp [astypeInt, h1, exceptIsOk]
      | ok n => rw [h1] at h; simp [exceptIsOk] at h
    · cases h1 : cellToInt c2 with
      | error e => simp [astypeInt, h1, exceptIsOk]
      | ok n =>
        have := ih h2
        cases h3 : astypeInt cs with
        | error e => simp [astypeInt, h1, h3, exceptIsOk]
        | ok ns => rw [h3] at this; simp [exceptIsOk] at this

theorem read_csv_ok {raw : RawCSV} {df : DataFrame} (h : read_csv raw = .ok df) :
    df = ⟨raw.rows.map Prod.fst, raw.header.map Cell.str, raw.rows.map Prod.snd⟩
    ∧ ∀ r ∈ raw.rows, r.2.length = raw.header.length := by
  unfold read_csv at h
  split at h
  · next hc =>
    cases h
    exact ⟨rfl, by simpa using hc⟩
  · exact absurd h (by simp)

theorem listTranspose_length (rows : List (List Cell)) (n : Nat) :
    (listTranspose rows n).length = n := by
  simp [listTranspose]

theorem filterMap_getElem_length {rows : List (List Cell)} {n j : Nat}
    (hrect : ∀ r ∈ rows, r.length = n) (hj : j < n) :
    (rows.filterMap (fun r => r[j]?)).length = rows.length := by
  induction rows with
  | nil => simp
  | cons r rows ih =>
    have hr : r.length = n := hrect r (by simp)
    have : j < r.length := hr ▸ hj
    rw [List.filterMap_cons]
    rw [List.getElem?_eq_getElem this]
    simpa using ih (fun r2 h2 => hrect r2 (by simp [h2]))

theorem listTranspose_row_lengths {rows : List (List Cell)} {n : Nat}
    (hrect : ∀ r ∈ rows, r.length = n) :
    (listTranspose rows n).map List.length = List.replicate n rows.length := by
  unfold listTranspose
  rw [List.map_map]
  rw [List.eq_replicate_iff]
  constructor
  · simp
  · intro b hb
    simp only [List.mem_map, List.mem_range] at hb
    obtain ⟨j, hj, hjb⟩ := hb
    rw [← hjb]
    exact filterMap_getElem_length hrect hj

theorem roundHalfEven_eq_zero {q : ℚ} (h1 : -(1/2) ≤ q) (h2 : q ≤ 1/2) :
    roundHalfEven q = 0 := by
  unfold roundHalfEven
  rcases le_or_lt 0 q with hq | hq
  · have hf : ⌊q⌋ = 0 := by
      rw [Int.floor_eq_zero_iff]
      exact Set.mem_Ico.mpr ⟨hq, by linarith⟩
    rw [hf]
    rcases lt_or_le q (1/2) with hlt | hge
    · rw [if_pos (by push_cast; linarith)]
    · have heq : q = 1/2 := le_antisymm h2 hge
      rw [if_neg (by push_cast; linarith), if_neg (by push_cast; linarith),
        if_pos (by decide)]
  · have hf : ⌊q⌋ = -1 := by
      rw [Int.floor_eq_iff]
      constructor
      · push_cast
        linarith
      · push_cast
        linarith
    rw [hf]
    rcases lt_or_le (1/2 : ℚ) (q + 1) with hlt | hge
    · rw [if_neg (by push_cast; linarith), if_pos (by push_cast; linarith)]
      norm_num
    · have heq : q = -(1/2) := by linarith
      rw [if_neg (by push_cast; linarith), if_neg (by push_cast; linarith),
        if_neg (by decide)]
      norm_num

theorem pyRound100_eq_zero {m : ℚ} (h1 : -50 ≤ m) (h2 : m ≤ 50) :
    pyRound100 m = 0 := by
  unfold pyRound100
  rw [roundHalfEven_eq_zero (by linarith) (by linarith)]
  simp

theorem np_arange_six {M : ℚ} (hM : 5 ≤ M) :
    np_arange 0 (M + 1) (M / 5) =
      .ok [0, M/5, 2*(M/5), 3*(M/5), 4*(M/5), M] := by
  have hM0 : (0 : ℚ) < M := by linarith
  have hstep : M / 5 ≠ 0 := by positivity
  unfold np_arange
  rw [if_neg hstep]
  have hdiv : (M + 1 - 0) / (M / 5) = 5 / M + ((5 : ℤ) : ℚ) := by
    push_cast
    field_simp
    ring
  have hceil : ⌈(M + 1 - 0) / (M / 5)⌉ = 6 := by
    rw [hdiv, Int.ceil_add_int]
    have h51 : ⌈(5 : ℚ) / M⌉ = 1 := by
      rw [Int.ceil_eq_iff]
      constructor
      · push_cast
        have h0 : (0 : ℚ) < 5 / M := by positivity
        linarith
      · push_cast
        rw [div_le_one hM0]
        exact hM
    rw [h51]
    norm_num
  rw [hceil]
  have hr : List.range (Int.toNat 6) = [0, 1, 2, 3, 4, 5] := rfl
  rw [hr]
  simp only [Except.ok.injEq, List.map_cons, List.map_nil, List.cons.injEq, and_true]
  norm_num
  ring

theorem np_arange_eval {start stop step : ℚ} (hstep : step ≠ 0) {n : ℤ}
    (hn : ⌈(stop - start) / step⌉ = n) :
    np_arange start stop step =
      .ok ((List.range n.toNat).map (fun i => start + (i : ℚ) * step)) := by
  unfold np_arange
  rw [if_neg hstep, hn]

theorem pyRound100_437 : pyRound100 437 = 400 := by
  unfold pyRound100 roundHalfEven
  norm_num

theorem pyRound100_470 : pyRound100 470 = 500 := by
  unfold pyRound100 roundHalfEven
  norm_num

theorem pyRound100_390 : pyRound100 390 = 400 := by
  unfold pyRound100 roundHalfEven
  norm_num

theorem pyRound100_neg100 : pyRound100 (-100) = -100 := by
  unfold pyRound100 roundHalfEven
  norm_num

theorem meshgrid_fst (x : List Cell) (y : List Int) :
    (meshgrid x y).1 = y.map (fun _ => x) := rfl

theorem meshgrid_snd (x : List Cell) (y : List Int) :
    (meshgrid x y).2 = y.map (fun v => x.map (fun _ => v)) := rfl

theorem get_XYZ_ok {raw : RawCSV} {X : List (List Cell)} {Y : List (List Int)}
    {Z : DataFrame} (h : get_XYZ raw = .ok (X, Y, Z)) :
    ∃ df y, read_csv raw = .ok df ∧ astypeInt (DataFrame.T df).index = .ok y ∧
      Z = DataFrame.T df ∧ X = y.map (fun _ => Z.columns) ∧
      Y = y.map (fun v => Z.columns.map (fun _ => v)) := by
  unfold get_XYZ at h
  split at h
  · exact absurd h (by simp)
  · next df heq =>
    dsimp only at h
    split at h
    · exact absurd h (by simp)
    · next y heq2 =>
      rw [Except.ok.injEq, Prod.mk.injEq, Prod.mk.injEq] at h
      obtain ⟨hX, hY, hZ⟩ := h
      exact ⟨df, y, heq, heq2, hZ.symm, by rw [← hX, meshgrid_fst, ← hZ],
        by rw [← hY, meshgrid_snd, ← hZ]⟩

theorem plot_contour_ok {X : List (List Cell)} {Y : List (List Int)} {Z : DataFrame}
    {fp fn fmt : String} {r : PlotResult} (h : plot_contour X Y Z fp fn fmt = .ok r) :
    ∃ m ticks, contourf X Y Z = .ok () ∧ dfMax Z = .ok m ∧
      np_arange 0 (pyRound100 m + 1) (pyRound100 m / 5) = .ok ticks ∧
      r = ⟨ticks, pyJoin fp (pyDropLast4 fn) ++ "." ++ fmt⟩ := by
  unfold plot_contour at h
  split at h
  · exact absurd h (by simp)
  · next u heq =>
    split at h
    · exact absurd h (by simp)
    · next m heq2 =>
      dsimp only at h
      split at h
      · exact absurd h (by simp)
      · next ticks heq3 =>
        cases h
        exact ⟨m, ticks, by cases u; exact heq, heq2, heq3, rfl⟩

theorem plot_contour_eval {X : List (List Cell)} {Y : List (List Int)} {Z : DataFrame}
    {fp fn fmt : String} {m : ℚ} {ticks : List ℚ}
    (hcf : contourf X Y Z = .ok ()) (hm : dfMax Z = .ok m)
    (har : np_arange 0 (pyRound100 m + 1) (pyRound100 m / 5) = .ok ticks) :
    plot_contour X Y Z fp fn fmt =
      .ok ⟨ticks, pyJoin fp (pyDropLast4 fn) ++ "." ++ fmt⟩ := by
  simp only [plot_contour, hcf, hm, har]

theorem plot_contour_error_of_round_zero {X : List (List Cell)} {Y : List (List Int)}
    {Z : DataFrame} {fp fn fmt : String} {m : ℚ} (hm : dfMax Z = .ok m)
    (hz : pyRound100 m = 0) :
    exceptIsOk (plot_contour X Y Z fp fn fmt) = false := by
  cases h1 : contourf X Y Z with
  | error e => simp [plot_contour, h1, exceptIsOk]
  | ok u => simp [plot_contour, h1, hm, hz, np_arange, exceptIsOk]

theorem pyDropLast4_append (base : String) : pyDropLast4 (base ++ ".csv") = base := by
  show String.mk (((base ++ ".csv").data).take ((base ++ ".csv").data.length - 4)) = base
  rw [String.data_append]
  have h4 : (".csv" : String).data = ['.', 'c', 's', 'v'] := rfl
  rw [h4, List.length_append]
  have h5 : List.length ['.', 'c', 's', 'v'] = 4 := rfl
  rw [h5, Nat.add_sub_cancel, List.take_left]

theorem runLoop_spec (contents : List (String × RawCSV)) (fp fmt : String)
    (files : List String) :
    (runLoop contents fp fmt files).count =
      (files.filter (fun f => exceptIsOk (processFile contents fp f fmt))).length
    ∧ (runLoop contents fp fmt files).outputs =
      files.filterMap (fun f => (processFile contents fp f fmt).toOption.map PlotResult.outPath)
    ∧ (runLoop contents fp fmt files).failLines =
      files.filterMap (fun f =>
        if exceptIsOk (processFile contents fp f fmt) = true then none
        else some ("Failed to plot " ++ f ++ ".")) := by
  induction files with
  | nil => exact ⟨rfl, rfl, rfl⟩
  | cons f fs ih =>
    obtain ⟨ih1, ih2, ih3⟩ := ih
    cases hp : processFile contents fp f fmt with
    | ok res =>
      simp [runLoop, hp, List.filter_cons, List.filterMap_cons, exceptIsOk,
        Except.toOption, ih1, ih2, ih3]
    | error e =>
      simp [runLoop, hp, List.filter_cons, List.filterMap_cons, exceptIsOk,
        Except.toOption, ih1, ih2, ih3]

theorem processFile_s1 : processFile sampleDir "dir" "s1.csv" "png" =
    .ok ⟨[0, 80, 160, 240, 320, 400], "dir/s1.png"⟩ := by
  have har : np_arange 0 (pyRound100 (437 : ℚ) + 1) (pyRound100 (437 : ℚ) / 5) =
      .ok [0, 80, 160, 240, 320, 400] := by
    rw [pyRound100_437, np_arange_six (by norm_num : (5 : ℚ) ≤ 400)]
    norm_num
  have h0 : processFile sampleDir "dir" "s1.csv" "png" =
      plot_contour sampleX2 sampleY2 (sampleZsmall 100 200 300 437) "dir" "s1.csv" "png" := rfl
  rw [h0]
  exact plot_contour_eval rfl rfl har

theorem processFile_s2 : processFile sampleDir "dir" "s2.csv" "png" =
    .ok ⟨[0, 80, 160, 240, 320, 400], "dir/s2.png"⟩ := by
  have har : np_arange 0 (pyRound100 (390 : ℚ) + 1) (pyRound100 (390 : ℚ) / 5) =
      .ok [0, 80, 160, 240, 320, 400] := by
    rw [pyRound100_390, np_arange_six (by norm_num : (5 : ℚ) ≤ 400)]
    norm_num
  have h0 : processFile sampleDir "dir" "s2.csv" "png" =
      plot_contour sampleX2 sampleY2 (sampleZsmall 110 210 310 390) "dir" "s2.csv" "png" := rfl
  rw [h0]
  exact plot_contour_eval rfl rfl har

theorem main_run_sampleDir :
    main_run sampleDir "dir" "png" =
      (⟨2, ["dir/s1.png", "dir/s2.png"], ["Failed to plot bad.csv."]⟩,
       "Succesfully plotted 2/3 files.") := by
  have hf : get_fileNames (sampleDir.map Prod.fst) = ["bad.csv", "s1.csv", "s2.csv"] := by
    decide
  have hbad : processFile sampleDir "dir" "bad.csv" "png" =
      .error "TypeError: Input z must be numeric" := rfl
  have hloop : runLoop sampleDir "dir" "png" ["bad.csv", "s1.csv", "s2.csv"] =
      ⟨2, ["dir/s1.png", "dir/s2.png"], ["Failed to plot bad.csv."]⟩ := by
    simp only [runLoop, hbad, processFile_s1, processFile_s2]
    rfl
  have hm : main_run sampleDir "dir" "png" =
      (runLoop sampleDir "dir" "png" (get_fileNames (sampleDir.map Prod.fst)),
       "Succesfully plotted " ++
         toString (runLoop sampleDir "dir" "png"
           (get_fileNames (sampleDir.map Prod.fst))).count ++ "/" ++
         toString (get_fileNames (sampleDir.map Prod.fst)).length ++ " files.") := rfl
  rw [hm, hf, hloop]
  rfl

/-! ### Claims -/

/-- C1 counterexample: on the well-formed table with excitation headers
300, 310, 320 and emission index 350, 360, `get_XYZ` returns X, Y and Z
of shape (3, 2) — three rows, not the claimed two — and Z's row 0 is
`[1, 4]` (the excitation-300 intensities), not the emission-350 row
`[1, 2, 3]` of the raw table. -/
theorem C1_counterexample :
    get_XYZ (sampleRaw 1 2 3 4 5 6) =
      .ok ([[Cell.num 350, Cell.num 360], [Cell.num 350, Cell.num 360],
            [Cell.num 350, Cell.num 360]],
           [[300, 300], [310, 310], [320, 320]],
           ⟨[Cell.str "300", Cell.str "310", Cell.str "320"],
            [Cell.num 350, Cell.num 360],
            [[Cell.num 1, Cell.num 4], [Cell.num 2, Cell.num 5],
             [Cell.num 3, Cell.num 6]]⟩)
    ∧ ([[Cell.num 1, Cell.num 4], [Cell.num 2, Cell.num 5],
        [Cell.num 3, Cell.num 6]] : List (List Cell)).length ≠ 2
    ∧ ([Cell.num 1, Cell.num 4] : List Cell) ≠ [Cell.num 1, Cell.num 2, Cell.num 3] := by
  refine ⟨rfl, by decide, by decide⟩

/-- C1 amended: for the well-formed table with excitation headers
300, 310, 320 and emission index 350, 360 and intensities a..f,
`get_XYZ` returns X, Y and Z each of shape (3, 2), with Z transposed
relative to the raw table so that Z's COLUMN 0 (entries `[a, b, c]`)
holds the emission-350 intensities across all three excitations. -/
theorem C1_thm (a b c d e f : ℚ) :
    get_XYZ (sampleRaw a b c d e f) =
      .ok ([[Cell.num 350, Cell.num 360], [Cell.num 350, Cell.num 360],
            [Cell.num 350, Cell.num 360]],
           [[300, 300], [310, 310], [320, 320]],
           ⟨[Cell.str "300", Cell.str "310", Cell.str "320"],
            [Cell.num 350, Cell.num 360],
            [[Cell.num a, Cell.num d], [Cell.num b, Cell.num e],
             [Cell.num c, Cell.num f]]⟩)
    ∧ (get_XYZ (sampleRaw a b c d e f)).toOption.map
        (fun t => t.2.2.data.map (fun row => row[0]?)) =
      some [some (Cell.num a), some (Cell.num b), some (Cell.num c)] := by
  exact ⟨rfl, rfl⟩

/-- C2 counterexample: after `get_XYZ`'s transposition of the sample
table, the columns are the two emission wavelengths 350, 360 — not the
three excitation wavelengths, whose count differs — the index is the
three excitation header strings, and X's first row repeats the emission
sequence, not the excitation sequence. -/
theorem C2_counterexample :
    (get_XYZ (sampleRaw 1 2 3 4 5 6)).toOption.map (fun t => t.2.2.columns) =
      some [Cell.num 350, Cell.num 360]
    ∧ (get_XYZ (sampleRaw 1 2 3 4 5 6)).toOption.map (fun t => t.2.2.index) =
      some [Cell.str "300", Cell.str "310", Cell.str "320"]
    ∧ (get_XYZ (sampleRaw 1 2 3 4 5 6)).toOption.map (fun t => t.1.head?) =
      some (some [Cell.num 350, Cell.num 360])
    ∧ ([Cell.num 350, Cell.num 360] : List Cell).length ≠
        (sampleRaw 1 2 3 4 5 6).header.length := by
  refine ⟨rfl, rfl, rfl, by decide⟩

/-- C2 amended: for every well-formed input table, after `get_XYZ`'s
transposition the resulting table has columns = the emission-wavelength
labels (the raw index column) and index = the excitation-wavelength
headers, and it is this index (the excitation headers) that is converted
to integers; the mesh construction makes X repeat the emission-wavelength
sequence across rows and Y repeat the integer-converted
excitation-wavelength sequence across columns, matching the transposed
table's shape. -/
theorem C2_thm {raw : RawCSV} {X : List (List Cell)} {Y : List (List Int)}
    {Z : DataFrame} {y : List Int}
    (h : get_XYZ raw = .ok (X, Y, Z)) (hy : astypeInt Z.index = .ok y) :
    Z.columns = raw.rows.map Prod.fst
    ∧ Z.index = raw.header.map Cell.str
    ∧ X = y.map (fun _ => Z.columns)
    ∧ Y = y.map (fun v => Z.columns.map (fun _ => v)) := by
  obtain ⟨df, y2, hread, hast, hZ, hX, hY⟩ := get_XYZ_ok h
  obtain ⟨hdf, hrect⟩ := read_csv_ok hread
  have hyy : y2 = y := by
    rw [hZ] at hy
    exact Except.ok.inj (hast.symm.trans hy)
  subst hyy
  refine ⟨?_, ?_, hX, hY⟩
  · rw [hZ, hdf]
    rfl
  · rw [hZ, hdf]
    rfl

/-- C2 witness: the amended statement instantiated on the concrete 2×2
sample table. -/
theorem C2_witness :
    get_XYZ (smallRaw 1 2 3 4) = .ok (sampleX2, sampleY2, sampleZsmall 1 2 3 4)
    ∧ astypeInt (sampleZsmall 1 2 3 4).index = .ok [300, 310]
    ∧ ((sampleZsmall 1 2 3 4).columns = (smallRaw 1 2 3 4).rows.map Prod.fst
       ∧ (sampleZsmall 1 2 3 4).index = (smallRaw 1 2 3 4).header.map Cell.str
       ∧ sampleX2 = ([300, 310] : List Int).map (fun _ => (sampleZsmall 1 2 3 4).columns)
       ∧ sampleY2 = ([300, 310] : List Int).map
           (fun v => (sampleZsmall 1 2 3 4).columns.map (fun _ => v))) :=
  ⟨rfl, rfl, C2_thm rfl rfl⟩

/-- C3 counterexample: on a matrix with maximum 470, the code's `maxZ`
is `round(470, -2) = 500`, not the claimed round-down 400, so the ticks
are `[0, 100, 200, 300, 400, 500]`, not what rounding down would give. -/
theorem C3_counterexample :
    plot_contour sampleX2 sampleY2 sampleZ470 "dir" "s.csv" "png" =
      .ok ⟨[0, 100, 200, 300, 400, 500], "dir/s.png"⟩
    ∧ dfMax sampleZ470 = .ok 470
    ∧ specFloor100 470 = 400
    ∧ pyRound100 470 = 500
    ∧ ([0, 100, 200, 300, 400, 500] : List ℚ) ≠ [0, 80, 160, 240, 320, 400] := by
  have har : np_arange 0 (pyRound100 (470 : ℚ) + 1) (pyRound100 (470 : ℚ) / 5) =
      .ok [0, 100, 200, 300, 400, 500] := by
    rw [pyRound100_470, np_arange_six (by norm_num : (5 : ℚ) ≤ 500)]
    norm_num
  refine ⟨?_, rfl, ?_, pyRound100_470, by norm_num⟩
  · exact plot_contour_eval rfl rfl har
  · unfold specFloor100
    norm_num

/-- C3 amended: `plot_contour` computes `maxZ` as the maximum intensity
value of Z rounded to the NEAREST multiple of 100 (ties to even, Python
`round(x, -2)`), and whenever that `maxZ` is positive it sets exactly 6
colorbar ticks evenly spaced from 0 to `maxZ` inclusive (5 equal
intervals of `maxZ/5`); in particular, when the maximum of Z is 437,
`maxZ` is 400 and the ticks are [0, 80, 160, 240, 320, 400]. -/
theorem C3_thm {X : List (List Cell)} {Y : List (List Int)} {Z : DataFrame}
    {fp fn fmt : String} {r : PlotResult} {m : ℚ}
    (h : plot_contour X Y Z fp fn fmt = .ok r) (hm : dfMax Z = .ok m)
    (hpos : 0 < pyRound100 m) :
    r.ticks = [0, pyRound100 m / 5, 2 * (pyRound100 m / 5),
               3 * (pyRound100 m / 5), 4 * (pyRound100 m / 5), pyRound100 m] := by
  obtain ⟨m2, ticks, hcf, hm2, har, hr⟩ := plot_contour_ok h
  have hmm : m2 = m := Except.ok.inj (hm2.symm.trans hm)
  rw [hmm] at har
  have h100 : (5 : ℚ) ≤ pyRound100 m := by
    have hk : (1 : ℤ) ≤ roundHalfEven (m / 100) := by
      by_contra hk
      push_neg at hk
      have hk2 : roundHalfEven (m / 100) ≤ 0 := by omega
      have hc : ((roundHalfEven (m / 100) : ℤ) : ℚ) ≤ 0 := by exact_mod_cast hk2
      have hle : pyRound100 m ≤ 0 := by
        unfold pyRound100
        nlinarith
      linarith
    have hc : (1 : ℚ) ≤ ((roundHalfEven (m / 100) : ℤ) : ℚ) := by exact_mod_cast hk
    unfold pyRound100
    nlinarith
  rw [np_arange_six h100] at har
  rw [hr]
  exact (Except.ok.inj har).symm

/-- C3 witness: the amended statement instantiated on the concrete
matrix with maximum 437, where `maxZ = 400` and the ticks come out as
[0, 80, 160, 240, 320, 400]. -/
theorem C3_witness :
    plot_contour sampleX2 sampleY2 sampleZ437 "dir" "s.csv" "png" =
      .ok ⟨[0, 80, 160, 240, 320, 400], "dir/s.png"⟩
    ∧ dfMax sampleZ437 = .ok 437
    ∧ (0 : ℚ) < pyRound100 437
    ∧ (⟨[0, 80, 160, 240, 320, 400], "dir/s.png"⟩ : PlotResult).ticks =
        [0, pyRound100 437 / 5, 2 * (pyRound100 437 / 5),
         3 * (pyRound100 437 / 5), 4 * (pyRound100 437 / 5), pyRound100 437] := by
  have hpos : (0 : ℚ) < pyRound100 437 := by rw [pyRound100_437]; norm_num
  have har : np_arange 0 (pyRound100 (437 : ℚ) + 1) (pyRound100 (437 : ℚ) / 5) =
      .ok [0, 80, 160, 240, 320, 400] := by
    rw [pyRound100_437, np_arange_six (by norm_num : (5 : ℚ) ≤ 400)]
    norm_num
  have hp : plot_contour sampleX2 sampleY2 sampleZ437 "dir" "s.csv" "png" =
      .ok ⟨[0, 80, 160, 240, 320, 400], "dir/s.png"⟩ :=
    plot_contour_eval rfl rfl har
  exact ⟨hp, rfl, hpos, C3_thm hp rfl hpos⟩

/-- C4: for every directory listing, `get_fileNames` returns exactly the
entries whose names end with `.csv` (case-sensitively), in lexicographic
sort order, and the result is invariant under the order in which the
underlying listing yields the entries. -/
theorem C4_thm (l : List String) :
    (∀ f, f ∈ get_fileNames l ↔ f ∈ l ∧ strEndsWith f ".csv" = true)
    ∧ List.Sorted pyStrLe (get_fileNames l)
    ∧ ∀ l2 : List String, l.Perm l2 → get_fileNames l = get_fileNames l2 := by
  refine ⟨?_, ?_, ?_⟩
  · intro f
    constructor
    · intro hf
      have hp := List.perm_insertionSort pyStrLe
        (l.filter (fun file => strEndsWith file ".csv"))
      have hf2 : f ∈ l.filter (fun file => strEndsWith file ".csv") :=
        hp.mem_iff.mp hf
      exact List.mem_filter.mp hf2
    · intro ⟨hl, hcsv⟩
      have hp := List.perm_insertionSort pyStrLe
        (l.filter (fun file => strEndsWith file ".csv"))
      exact hp.mem_iff.mpr (List.mem_filter.mpr ⟨hl, hcsv⟩)
  · exact List.sorted_insertionSort _ _
  · intro l2 hperm
    have hp2 : (get_fileNames l).Perm (get_fileNames l2) :=
      (List.perm_insertionSort pyStrLe _).trans
        ((hperm.filter _).trans (List.perm_insertionSort pyStrLe _).symm)
    exact List.eq_of_perm_of_sorted hp2 (List.sorted_insertionSort _ _)
      (List.sorted_insertionSort _ _)

/-- C4 witness: on a concrete directory listing containing three `.csv`
files and one `.txt` file, the result is the sorted `.csv` names, the
same for a permuted listing; a name ending in `.CSV` is excluded. -/
theorem C4_witness :
    (["b.csv", "x.txt", "c.csv", "a.csv"] : List String).Perm
        ["c.csv", "a.csv", "b.csv", "x.txt"]
    ∧ get_fileNames ["b.csv", "x.txt", "c.csv", "a.csv"] =
        get_fileNames ["c.csv", "a.csv", "b.csv", "x.txt"]
    ∧ get_fileNames ["b.csv", "x.txt", "c.csv", "a.csv"] = ["a.csv", "b.csv", "c.csv"]
    ∧ get_fileNames ["a.CSV"] = [] :=
  ⟨by decide, (C4_thm _).2.2 _ (by decide), by decide, by decide⟩

/-- C5 counterexample: in the three-file scenario with one malformed
file, the run's summary line is "Succesfully plotted 2/3 files." — the
script's actual (misspelled) text — and not the claimed "Successfully
plotted 2/3 files" (with or without the final period). -/
theorem C5_counterexample :
    (main_run sampleDir "dir" "png").2 = "Succesfully plotted 2/3 files."
    ∧ (main_run sampleDir "dir" "png").2 ≠ "Successfully plotted 2/3 files"
    ∧ (main_run sampleDir "dir" "png").2 ≠ "Successfully plotted 2/3 files." := by
  rw [main_run_sampleDir]
  exact ⟨rfl, by decide, by decide⟩

/-- C5 amended: for every discovered batch, a failure while processing a
single file is caught at the per-file boundary: the success count is the
number of files whose processing succeeds, the outputs are exactly the
successful files' image paths, each failing file produces a line
"Failed to plot <file>." and processing continues, and the summary line
reads "Succesfully plotted <count>/<total> files." (sic, as the script
spells it); in the concrete directory with 3 eligible files of which one
is malformed (non-numeric cell), the run reports
"Succesfully plotted 2/3 files.", prints "Failed to plot bad.csv." and
produces exactly the 2 output images. -/
theorem C5_thm :
    (∀ (contents : List (String × RawCSV)) (fp fmt : String),
      (main_run contents fp fmt).1.count =
        ((get_fileNames (contents.map Prod.fst)).filter
          (fun f => exceptIsOk (processFile contents fp f fmt))).length
      ∧ (main_run contents fp fmt).1.outputs =
        (get_fileNames (contents.map Prod.fst)).filterMap
          (fun f => (processFile contents fp f fmt).toOption.map PlotResult.outPath)
      ∧ (main_run contents fp fmt).1.failLines =
        (get_fileNames (contents.map Prod.fst)).filterMap
          (fun f => if exceptIsOk (processFile contents fp f fmt) = true then none
            else some ("Failed to plot " ++ f ++ "."))
      ∧ (main_run contents fp fmt).2 =
          "Succesfully plotted " ++ toString (main_run contents fp fmt).1.count ++
          "/" ++ toString (get_fileNames (contents.map Prod.fst)).length ++ " files.")
    ∧ main_run sampleDir "dir" "png" =
        (⟨2, ["dir/s1.png", "dir/s2.png"], ["Failed to plot bad.csv."]⟩,
         "Succesfully plotted 2/3 files.")
    ∧ (main_run sampleDir "dir" "png").1.outputs.length = 2 := by
  refine ⟨?_, main_run_sampleDir, ?_⟩
  · intro contents fp fmt
    obtain ⟨h1, h2, h3⟩ := runLoop_spec contents fp fmt
      (get_fileNames (contents.map Prod.fst))
    exact ⟨h1, h2, h3, rfl⟩
  · rw [main_run_sampleDir]
    rfl

/-- C6: for every input file on which `get_XYZ` succeeds, the returned
X, Y and Z satisfy X.shape == Y.shape == Z.shape: same number of rows,
and the rows have pointwise equal lengths. -/
theorem C6_thm {raw : RawCSV} {X : List (List Cell)} {Y : List (List Int)}
    {Z : DataFrame} (h : get_XYZ raw = .ok (X, Y, Z)) :
    X.length = Z.data.length ∧ Y.length = Z.data.length
    ∧ X.map List.length = Z.data.map List.length
    ∧ Y.map List.length = Z.data.map List.length := by
  obtain ⟨df, y, hread, hast, hZ, hX, hY⟩ := get_XYZ_ok h
  obtain ⟨hdf, hrect⟩ := read_csv_ok hread
  subst hdf
  subst hZ
  have hylen : y.length = raw.header.length := by
    have hl := astypeInt_length hast
    simpa [DataFrame.T] using hl
  have hrect2 : ∀ r ∈ raw.rows.map Prod.snd, r.length = (raw.header.map Cell.str).length := by
    intro r hr
    obtain ⟨p, hp, hpr⟩ := List.mem_map.mp hr
    rw [← hpr, List.length_map]
    exact hrect p hp
  have hZlen : (DataFrame.T ⟨raw.rows.map Prod.fst, raw.header.map Cell.str,
      raw.rows.map Prod.snd⟩).data.length = raw.header.length := by
    simp [DataFrame.T, listTranspose_length]
  have hZrows : (DataFrame.T ⟨raw.rows.map Prod.fst, raw.header.map Cell.str,
      raw.rows.map Prod.snd⟩).data.map List.length =
      List.replicate raw.header.length raw.rows.length := by
    show (listTranspose (raw.rows.map Prod.snd) (raw.header.map Cell.str).length).map
        List.length = List.replicate raw.header.length raw.rows.length
    rw [listTranspose_row_lengths hrect2]
    simp
  refine ⟨?_, ?_, ?_, ?_⟩
  · rw [hX, hZlen, List.length_map, hylen]
  · rw [hY, hZlen, List.length_map, hylen]
  · rw [hX, hZrows, List.map_map]
    have : ∀ v : Int, (List.length ∘ fun _ : Int =>
        (DataFrame.T ⟨raw.rows.map Prod.fst, raw.header.map Cell.str,
          raw.rows.map Prod.snd⟩).columns) v = raw.rows.length := by
      intro v
      simp [DataFrame.T]
    rw [List.map_congr_left (fun v _ => this v)]
    rw [List.map_const', hylen]
  · rw [hY, hZrows, List.map_map]
    have : ∀ v : Int, (List.length ∘ fun v : Int =>
        (DataFrame.T ⟨raw.rows.map Prod.fst, raw.header.map Cell.str,
          raw.rows.map Prod.snd⟩).columns.map (fun _ => v)) v = raw.rows.length := by
      intro v
      simp [DataFrame.T]
    rw [List.map_congr_left (fun v _ => this v)]
    rw [List.map_const', hylen]

/-- C6 witness: the invariant instantiated on the concrete 2×3 sample
table, where all three arrays have shape (3, 2). -/
theorem C6_witness :
    get_XYZ (sampleRaw 1 2 3 4 5 6) = .ok (sampleX3, sampleY3, sampleZ3 1 2 3 4 5 6)
    ∧ (sampleX3.length = (sampleZ3 1 2 3 4 5 6).data.length
       ∧ sampleY3.length = (sampleZ3 1 2 3 4 5 6).data.length
       ∧ sampleX3.map List.length = (sampleZ3 1 2 3 4 5 6).data.map List.length
       ∧ sampleY3.map List.length = (sampleZ3 1 2 3 4 5 6).data.map List.length) := by
  have h : get_XYZ (sampleRaw 1 2 3 4 5 6) =
      .ok (sampleX3, sampleY3, sampleZ3 1 2 3 4 5 6) := rfl
  exact ⟨h, C6_thm h⟩

/-- C7 counterexample: a matrix whose maximum is −100 (not positive)
does NOT make `plot_contour` raise: the rounded maximum is −100, the
tick step −20 is nonzero, `np.arange` yields the descending ticks
[0, −20, −40, −60, −80], and an output image is written. -/
theorem C7_counterexample :
    dfMax sampleZneg = .ok (-100)
    ∧ ((-100 : ℚ) ≤ 0)
    ∧ plot_contour sampleX2 sampleY2 sampleZneg "dir" "s.csv" "png" =
        .ok ⟨[0, -20, -40, -60, -80], "dir/s.png"⟩ := by
  have hceil : ⌈((-100 : ℚ) + 1 - 0) / (-100 / 5)⌉ = (5 : ℤ) := by
    rw [Int.ceil_eq_iff]
    norm_num
  have har : np_arange 0 (pyRound100 (-100 : ℚ) + 1) (pyRound100 (-100 : ℚ) / 5) =
      .ok [0, -20, -40, -60, -80] := by
    rw [pyRound100_neg100, np_arange_eval (by norm_num) hceil]
    have hr : List.range ((5 : ℤ)).toNat = [0, 1, 2, 3, 4] := rfl
    rw [hr]
    simp only [Except.ok.injEq, List.map_cons, List.map_nil, List.cons.injEq, and_true]
    norm_num
  exact ⟨rfl, by norm_num, plot_contour_eval rfl rfl har⟩

/-- C7 amended: `plot_contour` fails before writing output exactly when
the maximum rounds to 0 at the hundreds place; in particular, for every
matrix whose maximum m satisfies −50 ≤ m ≤ 0, the tick step `maxZ/5` is
0 and `np.arange` raises `ZeroDivisionError`.  (For maxima below −50 no
error is raised — see the counterexample.) -/
theorem C7_thm {X : List (List Cell)} {Y : List (List Int)} {Z : DataFrame}
    {fp fn fmt : String} {m : ℚ} (hm : dfMax Z = .ok m) (h0 : m ≤ 0)
    (h50 : -50 ≤ m) :
    exceptIsOk (plot_contour X Y Z fp fn fmt) = false :=
  plot_contour_error_of_round_zero hm (pyRound100_eq_zero h50 (by linarith))

/-- C7 witness: the amended statement instantiated on the matrix with
maximum −30, whose rendering fails. -/
theorem C7_witness :
    dfMax sampleZm30 = .ok (-30)
    ∧ ((-30 : ℚ) ≤ 0)
    ∧ (-50 : ℚ) ≤ -30
    ∧ exceptIsOk (plot_contour sampleX2 sampleY2 sampleZm30 "dir" "s.csv" "png") = false :=
  ⟨rfl, by norm_num, by norm_num, C7_thm rfl (by norm_num) (by norm_num)⟩

/-- C8 counterexample: a rectangular table containing a non-numeric body
cell is loaded by `get_XYZ` without any error, contradicting "fails with
a parse error ... whenever the table contains non-numeric cells". -/
theorem C8_counterexample :
    (rawBad.rows.map Prod.snd).flatten.any (fun c => !c.isNum) = true
    ∧ exceptIsOk (get_XYZ rawBad) = true :=
  ⟨by decide, rfl⟩

/-- C8 amended: `get_XYZ` fails when the file cannot be tokenized as a
rectangular table or when a HEADER label (an excitation wavelength, which
is what `astype(int)` is applied to after the transpose) is not
integer-convertible; it performs no numeric validation of the body: every
rectangular table with integer-convertible headers loads successfully,
non-numeric cells included (their failure surfaces later, in rendering),
and the index column (emission labels) is never converted to integers. -/
theorem C8_thm (raw : RawCSV) :
    ((∃ h0 ∈ raw.header, parseInt h0 = none) →
      exceptIsOk (get_XYZ raw) = false)
    ∧ ((∀ r ∈ raw.rows, r.2.length = raw.header.length) →
       (∀ h0 ∈ raw.header, (parseInt h0).isSome) →
       exceptIsOk (get_XYZ raw) = true) := by
  constructor
  · rintro ⟨h0, hmem, hnone⟩
    unfold get_XYZ
    cases hread : read_csv raw with
    | error e => simp [exceptIsOk]
    | ok df =>
      obtain ⟨hdf, hrect⟩ := read_csv_ok hread
      subst hdf
      dsimp only
      have hmem2 : Cell.str h0 ∈ (DataFrame.T ⟨raw.rows.map Prod.fst,
          raw.header.map Cell.str, raw.rows.map Prod.snd⟩).index :=
        List.mem_map_of_mem Cell.str hmem
      have hbad : exceptIsOk (cellToInt (Cell.str h0)) = false := by
        simp [cellToInt, hnone, exceptIsOk]
      have hall := astypeInt_not_ok_of_mem hmem2 hbad
      cases hast : astypeInt ((DataFrame.T ⟨raw.rows.map Prod.fst,
          raw.header.map Cell.str, raw.rows.map Prod.snd⟩).index) with
      | error e => simp [exceptIsOk]
      | ok y => rw [hast] at hall; simp [exceptIsOk] at hall
  · intro hrect hsome
    unfold get_XYZ
    have hread : read_csv raw = .ok ⟨raw.rows.map Prod.fst,
        raw.header.map Cell.str, raw.rows.map Prod.snd⟩ := by
      unfold read_csv
      rw [if_pos]
      simp only [List.all_eq_true, decide_eq_true_eq]
      exact fun r hr => hrect r hr
    rw [hread]
    dsimp only
    have hok : exceptIsOk (astypeInt ((DataFrame.T ⟨raw.rows.map Prod.fst,
        raw.header.map Cell.str, raw.rows.map Prod.snd⟩).index)) = true := by
      apply astypeInt_isOk_of_forall
      intro c hc
      have hc2 : c ∈ raw.header.map Cell.str := hc
      obtain ⟨h0, hh, hch⟩ := List.mem_map.mp hc2
      have hs := hsome h0 hh
      cases hp : parseInt h0 with
      | none => rw [hp] at hs; simp at hs
      | some n => rw [← hch]; simp [cellToInt, hp, exceptIsOk]
    cases hast : astypeInt ((DataFrame.T ⟨raw.rows.map Prod.fst,
        raw.header.map Cell.str, raw.rows.map Prod.snd⟩).index) with
    | error e => rw [hast] at hok; simp [exceptIsOk] at hok
    | ok y => simp [exceptIsOk]

/-- C8 witness: the amended statement instantiated on a table whose
header "ex300" is not integer-convertible (load fails) and on the
rectangular table with a non-numeric body cell (load succeeds). -/
theorem C8_witness :
    (∃ h0 ∈ rawBadHeader.header, parseInt h0 = none)
    ∧ exceptIsOk (get_XYZ rawBadHeader) = false
    ∧ (∀ r ∈ rawBad.rows, r.2.length = rawBad.header.length)
    ∧ (∀ h0 ∈ rawBad.header, (parseInt h0).isSome)
    ∧ exceptIsOk (get_XYZ rawBad) = true :=
  ⟨⟨"ex300", by decide, by decide⟩,
   (C8_thm rawBadHeader).1 ⟨"ex300", by decide, by decide⟩,
   by decide, by decide,
   (C8_thm rawBad).2 (by decide) (by decide)⟩

/-- C9: for every input file name of the form `<base>.csv` and every
format, a successful `plot_contour` writes its output at
`os.path.join(filePath, base) + "." + format` — the input's directory,
the input's base name with the extension stripped, the new extension —
and the save overwrites whatever the file store previously held at that
path, unconditionally. -/
theorem C9_thm {base fp fmt : String} {X : List (List Cell)} {Y : List (List Int)}
    {Z : DataFrame} {r : PlotResult}
    (h : plot_contour X Y Z fp (base ++ ".csv") fmt = .ok r) :
    r.outPath = pyJoin fp base ++ "." ++ fmt
    ∧ ∀ (fs : String → Option String) (content : String),
        savefig fs r.outPath content r.outPath = some content := by
  obtain ⟨m, ticks, hcf, hm, har, hr⟩ := plot_contour_ok h
  constructor
  · rw [hr]
    show pyJoin fp (pyDropLast4 (base ++ ".csv")) ++ "." ++ fmt =
      pyJoin fp base ++ "." ++ fmt
    rw [pyDropLast4_append]
  · intro fs content
    unfold savefig
    rw [if_pos rfl]

/-- C9 witness: the statement instantiated on the 437-maximum sample
saved as svg into directory "out". -/
theorem C9_witness :
    plot_contour sampleX2 sampleY2 sampleZ437 "out" ("s" ++ ".csv") "svg" =
      .ok ⟨[0, 80, 160, 240, 320, 400], "out/s.svg"⟩
    ∧ ((⟨[0, 80, 160, 240, 320, 400], "out/s.svg"⟩ : PlotResult).outPath =
        pyJoin "out" "s" ++ "." ++ "svg"
       ∧ ∀ (fs : String → Option String) (content : String),
          savefig fs (⟨[0, 80, 160, 240, 320, 400], "out/s.svg"⟩ : PlotResult).outPath
            content
            (⟨[0, 80, 160, 240, 320, 400], "out/s.svg"⟩ : PlotResult).outPath =
            some content) := by
  have har : np_arange 0 (pyRound100 (437 : ℚ) + 1) (pyRound100 (437 : ℚ) / 5) =
      .ok [0, 80, 160, 240, 320, 400] := by
    rw [pyRound100_437, np_arange_six (by norm_num : (5 : ℚ) ≤ 400)]
    norm_num
  have hp : plot_contour sampleX2 sampleY2 sampleZ437 "out" ("s" ++ ".csv") "svg" =
      .ok ⟨[0, 80, 160, 240, 320, 400], "out/s.svg"⟩ :=
    plot_contour_eval rfl rfl har
  exact ⟨hp, C9_thm hp⟩

/-- C10: for every intensity matrix whose maximum m is strictly positive
but below 50 (so it rounds to 0 at the hundreds place), the code's
`maxZ` is 0, the colorbar tick step `maxZ/5` is 0, and `plot_contour`
raises (`np.arange` with zero step) before writing any output: valid
low-magnitude data is always rejected. -/
theorem C10_thm {X : List (List Cell)} {Y : List (List Int)} {Z : DataFrame}
    {fp fn fmt : String} {m : ℚ} (hm : dfMax Z = .ok m) (h0 : 0 < m)
    (h50 : m < 50) :
    pyRound100 m = 0 ∧ exceptIsOk (plot_contour X Y Z fp fn fmt) = false := by
  have hz : pyRound100 m = 0 := pyRound100_eq_zero (by linarith) (by linarith)
  exact ⟨hz, plot_contour_error_of_round_zero hm hz⟩

/-- C10 witness: the statement instantiated on the matrix with maximum
40, which `plot_contour` rejects. -/
theorem C10_witness :
    dfMax sampleZlow = .ok 40
    ∧ (0 : ℚ) < 40
    ∧ (40 : ℚ) < 50
    ∧ (pyRound100 40 = 0
       ∧ exceptIsOk (plot_contour sampleX2 sampleY2 sampleZlow "dir" "s.csv" "png") =
          false) :=
  ⟨rfl, by norm_num, by norm_num, C10_thm rfl (by norm_num) (by norm_num)⟩

end PlotEEM
